import Mathlib

/-!
Verification of the DAP server adapter (service/dap/server.go): a shallow
embedding of the handle registries, value conversion, request handlers,
the command executor and the teardown paths, with theorems checking the
specification's claims against them.
-/

namespace DelveDap

/-! ## Handle registry

The `handlesMap` type is referenced by server.go (`stackFrameHandles`,
`variableHandles`) but its own file is not part of the staged sources, so it
is modelled from the spec. -/

/-- stackFrame represents the index of a frame within the context of a stack
of a specific goroutine (source: `stackFrame` struct, server.go). -/
structure StackFrame where
  goroutineID : Int
  frameIndex : Nat
deriving Repr, DecidableEq

/-- Modelled from the spec: the handle registry (`handlesMap`, whose source
file is not under src/). §4.1: `create` allocates a fresh unique positive
integer and stores the payload; `get` is a pure lookup; `reset` discards all
entries and resets the allocation counter. The counter starts at 1 since a
zero handle is reserved to mean "no children". -/
structure HandlesMap (α : Type) where
  nextHandle : Nat
  entries : List (Nat × α)
deriving Repr, DecidableEq

/-- Modelled from the spec: a fresh registry, no entries, counter at the
first positive handle. -/
def newHandlesMap (α : Type) : HandlesMap α := ⟨1, []⟩

/-- Modelled from the spec: allocate a fresh handle, store the payload. -/
def HandlesMap.create {α : Type} (m : HandlesMap α) (p : α) : Nat × HandlesMap α :=
  (m.nextHandle, ⟨m.nextHandle + 1, (m.nextHandle, p) :: m.entries⟩)

/-- Modelled from the spec: pure lookup of a handle. -/
def HandlesMap.get {α : Type} (m : HandlesMap α) (h : Nat) : Option α :=
  m.entries.lookup h

/-- Modelled from the spec: discard all entries and reset the counter. -/
def HandlesMap.reset {α : Type} (_ : HandlesMap α) : HandlesMap α := ⟨1, []⟩

/-- Well-formedness of a registry: every stored handle was issued before the
current counter value. Holds for every registry reachable from
`newHandlesMap` by `create` and `reset`. -/
def HandlesMap.WF {α : Type} (m : HandlesMap α) : Prop :=
  ∀ e ∈ m.entries, e.1 < m.nextHandle

/-! ## Runtime value snapshots (proc.Variable as seen by the converter) -/

/-- The value-kind tag (reflect.Kind as used by convertVariable). `rawPtrK`
stands for reflect.UnsafePointer; kinds the converter does not name fall to
the default branch, like Go's switch. -/
inductive VKind
  | invalid
  | boolK
  | intK
  | uintK
  | float32K
  | float64K
  | complex64K
  | complex128K
  | arrayK
  | chanK
  | funcK
  | interfaceK
  | mapK
  | ptrK
  | sliceK
  | stringK
  | structK
  | rawPtrK
deriving Repr, DecidableEq

/-- The non-recursive attributes of a proc.Variable. String-valued results of
the external helpers are carried as fields: `typeName` is
api.PrettyTypeName(v.DwarfType), `typeString` is v.TypeString(), `strVal` is
constant.StringVal(v.Value), `valueAsString` is api.VariableValueAsString(v),
and `realStr`/`imagStr` are the renderings of constant.Real/Imag(v.Value)
for complex values. `hasDwarfType` records whether v.DwarfType is non-nil. -/
structure VarAttrs where
  name : String
  addr : Nat
  base : Nat
  len : Int
  vcap : Int
  kind : VKind
  hasDwarfType : Bool
  typeName : String
  typeString : String
  unreadable : Option String
  strVal : String
  valueAsString : String
  realStr : String
  imagStr : String
deriving Repr, DecidableEq

/-- A defaulted attribute record (zero value), used to synthesize the
`real`/`imaginary` children of a complex value. -/
def zeroAttrs : VarAttrs :=
  ⟨"", 0, 0, 0, 0, .invalid, false, "", "", none, "", "", "", ""⟩

/-- proc.Variable: attributes plus the ordered children subtree. -/
inductive ProcVariable where
  | mk (attrs : VarAttrs) (children : List ProcVariable)

/-- The attribute record of a variable. -/
def ProcVariable.attrs : ProcVariable → VarAttrs
  | .mk a _ => a

/-- The children of a variable. -/
def ProcVariable.children : ProcVariable → List ProcVariable
  | .mk _ c => c

/-- The value-handle registry (`variableHandles` field of the server). -/
abbrev VarHandles := HandlesMap ProcVariable

/-- Rendering of fmt's %#x for an address. -/
def hexStr (n : Nat) : String := "0x" ++ String.mk (Nat.toDigits 16 n)

/-- Rendering of fmt's %q: the string between double quotes. Go's escaping
of special characters inside the string is abstracted away; no claim
depends on it. -/
def goQuote (s : String) : String := "\x22" ++ s ++ "\x22"

/-- Default branch of convertVariable (struct, fallthrough target of complex,
scalar): the value's own string rendering if non-empty, else the type name;
a child handle iff there is at least one child. -/
def convertDefault (s : VarHandles) (v : ProcVariable) : String × Nat × VarHandles :=
  let vvalue := v.attrs.valueAsString
  let value := if vvalue != "" then vvalue else "<" ++ v.attrs.typeName ++ ">"
  match v.children with
  | [] => (value, 0, s)
  | _ :: _ =>
    let r := s.create v
    (value, r.1, r.2)

/-- The two children convertVariable synthesizes for a complex value before
falling through to the default branch: `real` and `imaginary` of the
matching float width. -/
def complexChildren (v : ProcVariable) (floatKind : VKind) : List ProcVariable :=
  [ProcVariable.mk
    { zeroAttrs with
      name := "real"
      kind := floatKind
      valueAsString := v.attrs.realStr } [],
   ProcVariable.mk
    { zeroAttrs with
      name := "imaginary"
      kind := floatKind
      valueAsString := v.attrs.imagStr } []]

/-- convertVariable (server.go): converts a proc.Variable to a display value
and a variables reference, allocating a value handle when the variable is
expandable. Returns (value, variablesReference, registry after the call). -/
def convertVariable (s : VarHandles) (v : ProcVariable) : String × Nat × VarHandles :=
  match v.attrs.unreadable with
  | some cause => ("unreadable <" ++ cause ++ ">", 0, s)
  | none =>
    let typeName := v.attrs.typeName
    match v.attrs.kind with
    | .rawPtrK =>
      match v.children with
      | [] => ("unsafe.Pointer(nil)", 0, s)
      | c :: _ => ("unsafe.Pointer(" ++ hexStr c.attrs.addr ++ ")", 0, s)
    | .ptrK =>
      match v.attrs.hasDwarfType, v.children with
      | false, _ => ("nil", 0, s)
      | true, [] => ("nil", 0, s)
      | true, c :: _ =>
        if c.attrs.addr == 0 then ("nil <" ++ typeName ++ ">", 0, s)
        else if c.attrs.kind == .invalid then ("void", 0, s)
        else
          let r := s.create v
          ("<" ++ typeName ++ ">(" ++ hexStr c.attrs.addr ++ ")", r.1, r.2)
    | .arrayK =>
      let value := "<" ++ typeName ++ ">"
      match v.children with
      | [] => (value, 0, s)
      | _ :: _ =>
        let r := s.create v
        (value, r.1, r.2)
    | .sliceK =>
      if v.attrs.base == 0 then ("nil <" ++ typeName ++ ">", 0, s)
      else
        let value := "<" ++ typeName ++ "> (length: " ++ toString v.attrs.len ++
          ", cap: " ++ toString v.attrs.vcap ++ ")"
        match v.children with
        | [] => (value, 0, s)
        | _ :: _ =>
          let r := s.create v
          (value, r.1, r.2)
    | .mapK =>
      if v.attrs.base == 0 then ("nil <" ++ typeName ++ ">", 0, s)
      else
        let value := "<" ++ typeName ++ "> (length: " ++ toString v.attrs.len ++ ")"
        match v.children with
        | [] => (value, 0, s)
        | _ :: _ =>
          let r := s.create v
          (value, r.1, r.2)
    | .stringK =>
      let vvalue := v.attrs.strVal
      let lenNotLoaded : Int := v.attrs.len - Int.ofNat vvalue.length
      let vvalue :=
        if lenNotLoaded > 0 then vvalue ++ "...+" ++ toString lenNotLoaded ++ " more"
        else vvalue
      (goQuote vvalue, 0, s)
    | .chanK =>
      match v.children with
      | [] => ("nil <" ++ typeName ++ ">", 0, s)
      | _ :: _ =>
        let r := s.create v
        ("<" ++ typeName ++ ">", r.1, r.2)
    | .interfaceK =>
      if v.attrs.addr == 0 then ("nil", 0, s)
      else
        match v.children with
        | [] => ("nil <" ++ typeName ++ ">", 0, s)
        | c :: _ =>
          if c.attrs.kind == .invalid && c.attrs.addr == 0 then
            ("nil <" ++ typeName ++ ">", 0, s)
          else
            let r := s.create v
            ("<" ++ typeName ++ "(" ++ c.attrs.typeString ++ ")" ++ ">", r.1, r.2)
    | .complex64K => convertDefault s (ProcVariable.mk v.attrs (complexChildren v .float32K))
    | .complex128K => convertDefault s (ProcVariable.mk v.attrs (complexChildren v .float64K))
    | _ => convertDefault s v

/-- Whether convertVariable allocates a value handle for this snapshot,
read off from each branch of the conversion. -/
def convAllocates (v : ProcVariable) : Bool :=
  match v.attrs.unreadable with
  | some _ => false
  | none =>
    match v.attrs.kind with
    | .rawPtrK => false
    | .ptrK =>
      match v.attrs.hasDwarfType, v.children with
      | false, _ => false
      | true, [] => false
      | true, c :: _ => !(c.attrs.addr == 0) && !(c.attrs.kind == .invalid)
    | .arrayK => !v.children.isEmpty
    | .sliceK => !(v.attrs.base == 0) && !v.children.isEmpty
    | .mapK => !(v.attrs.base == 0) && !v.children.isEmpty
    | .stringK => false
    | .chanK => !v.children.isEmpty
    | .interfaceK =>
      if v.attrs.addr == 0 then false
      else
        match v.children with
        | [] => false
        | c :: _ => !(c.attrs.kind == .invalid && c.attrs.addr == 0)
    | .complex64K => true
    | .complex128K => true
    | _ => !v.children.isEmpty

theorem convAllocates_false_spec (s : VarHandles) (v : ProcVariable)
    (h : convAllocates v = false) :
    (convertVariable s v).2.1 = 0 ∧ (convertVariable s v).2.2 = s := by
  obtain ⟨a, cs⟩ := v
  simp only [convAllocates, convertVariable, ProcVariable.attrs, ProcVariable.children] at h ⊢
  cases hu : a.unreadable with
  | some cause => simp [hu]
  | none =>
    rw [hu] at h
    cases hk : a.kind <;> rw [hk] at h <;>
      simp only [convertDefault, complexChildren, ProcVariable.attrs, ProcVariable.children] at h ⊢
    case invalid | boolK | intK | uintK | float32K | float64K | funcK | structK =>
      cases cs <;> simp_all
    case complex64K | complex128K => simp at h
    case rawPtrK => cases cs <;> simp
    case ptrK =>
      cases hd : a.hasDwarfType <;> rw [hd] at h
      · cases cs <;> simp
      · cases cs with
        | nil => simp
        | cons c rest =>
          obtain ⟨ca, ccs⟩ := c
          simp only [ProcVariable.attrs] at h ⊢
          simp only [Bool.and_eq_false_iff] at h
          simp at h
          rcases h with h | h
          · simp [h]
          · by_cases h0 : ca.addr = 0 <;> simp [h0, h]
    case arrayK => cases cs <;> simp_all
    case chanK => cases cs <;> simp_all
    case sliceK =>
      by_cases hb : a.base == 0 <;> simp only [hb, Bool.not_true, Bool.not_false,
        Bool.false_and, Bool.true_and] at h ⊢
      · simp
      · cases cs <;> simp_all
    case mapK =>
      by_cases hb : a.base == 0 <;> simp only [hb, Bool.not_true, Bool.not_false,
        Bool.false_and, Bool.true_and] at h ⊢
      · simp
      · cases cs <;> simp_all
    case stringK => simp
    case interfaceK =>
      by_cases ha : a.addr = 0
      · simp [ha]
      · simp only [ha, beq_iff_eq, if_false, if_neg] at h ⊢
        cases cs with
        | nil => simp
        | cons c rest =>
          obtain ⟨ca, ccs⟩ := c
          simp only [ProcVariable.attrs] at h ⊢
          simp at h
          simp [h]

/-! ## Registry lemmas -/

theorem lookup_some_mem {α : Type} (l : List (Nat × α)) (h : Nat) (p : α)
    (hl : l.lookup h = some p) : (h, p) ∈ l := by
  induction l with
  | nil => simp [List.lookup] at hl
  | cons e t ih =>
    obtain ⟨k, v⟩ := e
    by_cases hk : h = k
    · subst hk
      simp [List.lookup] at hl
      subst hl
      exact List.mem_cons_self _ _
    · rw [List.lookup_cons] at hl
      have : (h == k) = false := beq_eq_false_iff_ne.mpr hk
      rw [this] at hl
      exact List.mem_cons_of_mem _ (ih hl)

theorem HandlesMap.WF.new {α : Type} : (newHandlesMap α).WF := by
  intro e he
  simp [newHandlesMap] at he

theorem HandlesMap.get_create_preserved {α : Type} (m : HandlesMap α) (q : α)
    (h : Nat) (p : α) (hwf : m.WF) (hg : m.get h = some p) :
    ((m.create q).2).get h = some p := by
  have hmem := lookup_some_mem m.entries h p hg
  have hlt : h < m.nextHandle := hwf _ hmem
  have hne : (h == m.nextHandle) = false := beq_eq_false_iff_ne.mpr (Nat.ne_of_lt hlt)
  simp only [HandlesMap.create, HandlesMap.get, List.lookup_cons, hne]
  exact hg

theorem HandlesMap.get_create_fresh {α : Type} (m : HandlesMap α) (q : α) :
    ((m.create q).2).get (m.create q).1 = some q := by
  simp [HandlesMap.create, HandlesMap.get, List.lookup_cons]

theorem HandlesMap.get_reset {α : Type} (m : HandlesMap α) (h : Nat) :
    (m.reset).get h = none := by
  simp [HandlesMap.reset, HandlesMap.get, List.lookup]

/-! ## Nil-valued snapshots (claim C2) -/

/-- The nil-valued cases enumerated by the claim: a slice or map whose
underlying base address is zero, a channel with no children, and the
nil pointer cases (no DWARF type, no children, or a pointee at address
zero). A nil-valued snapshot is a readable one. -/
def isNilValuedSnapshot (v : ProcVariable) : Prop :=
  v.attrs.unreadable = none ∧
  ((v.attrs.kind = .sliceK ∧ v.attrs.base = 0) ∨
   (v.attrs.kind = .mapK ∧ v.attrs.base = 0) ∨
   (v.attrs.kind = .chanK ∧ v.children = []) ∨
   (v.attrs.kind = .ptrK ∧
     (v.attrs.hasDwarfType = false ∨ v.children = [] ∨
      (∃ c rest, v.children = c :: rest ∧ c.attrs.addr = 0))))

theorem nil_typed_display_decomp (t : String) :
    ∃ u, "nil <" ++ t ++ ">" = "nil" ++ u := by
  refine ⟨" <" ++ t ++ ">", ?_⟩
  have h : ("nil <" : String) = "nil" ++ " <" := rfl
  rw [h, String.append_assoc, String.append_assoc, String.append_assoc]

/-! ## Error identifiers

Modelled from the spec: the synthetic error identifiers are
implementation-defined but stable and pairwise distinct (their defining
file is not under src/). -/

def FailedToLaunch : Nat := 3000
def UnableToSetBreakpoints : Nat := 2002
def UnableToDisplayThreads : Nat := 2003
def UnableToProduceStackTrace : Nat := 2004
def UnableToListArgs : Nat := 2005
def UnableToListLocals : Nat := 2006
def UnableToListGlobals : Nat := 2007
def UnableToLookupVariable : Nat := 2008
def UnsupportedCommand : Nat := 9999
def NotYetImplemented : Nat := 7777
def InternalError : Nat := 8888

/-! ## Variables request (server.go onVariablesRequest) -/

/-- One entry of a variables response body. -/
structure DapVariable where
  name : String
  value : String
  variablesReference : Nat
deriving Repr, DecidableEq

/-- Outcome of a variables request. -/
inductive VariablesResult
  | errorResp (id : Nat) (summary details : String)
  | ok (vars : List DapVariable)
deriving Repr, DecidableEq

/-- The map branch of onVariablesRequest: children are processed in pairs
(key at even indices, value at odd indices), `i` is the running key/value
pair index. `none` models the Go out-of-range panic on an odd number of
children. -/
def mapChildrenVars (s : VarHandles) : List ProcVariable → Nat →
    Option (VarHandles × List DapVariable)
  | [], _ => some (s, [])
  | k :: val :: rest, i =>
    let ck := convertVariable s k
    let cv := convertVariable ck.2.2 val
    let entries :=
      if ck.2.1 > 0 && cv.2.1 > 0 then
        [{ name := "[key " ++ toString i ++ "]", value := ck.1,
           variablesReference := ck.2.1 },
         { name := "[val " ++ toString i ++ "]", value := cv.1,
           variablesReference := cv.2.1 }]
      else
        let kvvar : DapVariable := { name := ck.1, value := cv.1, variablesReference := 0 }
        let kvvar :=
          if ck.2.1 != 0 then
            { kvvar with
              name := kvvar.name ++ "[" ++ toString i ++ "]"
              variablesReference := ck.2.1 }
          else if cv.2.1 != 0 then { kvvar with variablesReference := cv.2.1 }
          else kvvar
        [kvvar]
    match mapChildrenVars cv.2.2 rest (i + 1) with
    | none => none
    | some r => some (r.1, entries ++ r.2)
  | _ :: [], _ => none

/-- The slice/array branch of onVariablesRequest: children named by index. -/
def indexedChildrenVars (s : VarHandles) : List ProcVariable → Nat →
    VarHandles × List DapVariable
  | [], _ => (s, [])
  | c :: rest, i =>
    let cc := convertVariable s c
    let r := indexedChildrenVars cc.2.2 rest (i + 1)
    (r.1, { name := "[" ++ toString i ++ "]", value := cc.1,
            variablesReference := cc.2.1 } :: r.2)

/-- The default branch of onVariablesRequest: children keep their own name. -/
def namedChildrenVars (s : VarHandles) : List ProcVariable →
    VarHandles × List DapVariable
  | [] => (s, [])
  | c :: rest =>
    let cc := convertVariable s c
    let r := namedChildrenVars cc.2.2 rest
    (r.1, { name := c.attrs.name, value := cc.1,
            variablesReference := cc.2.1 } :: r.2)

/-- onVariablesRequest (server.go): resolve the value handle and render its
children by kind. `none` models a handler panic (odd map children), which
the dispatch boundary would turn into an internal error. -/
def onVariablesRequest (s : VarHandles) (ref : Nat) :
    Option (VarHandles × VariablesResult) :=
  match s.get ref with
  | none =>
    some (s, .errorResp UnableToLookupVariable ("Unable to lookup variable")
      ("unknown reference " ++ toString ref))
  | some v =>
    match v.attrs.kind with
    | .mapK =>
      match mapChildrenVars s v.children 0 with
      | none => none
      | some r => some (r.1, .ok r.2)
    | .sliceK =>
      let r := indexedChildrenVars s v.children 0
      some (r.1, .ok r.2)
    | .arrayK =>
      let r := indexedChildrenVars s v.children 0
      some (r.1, .ok r.2)
    | _ =>
      let r := namedChildrenVars s v.children
      some (r.1, .ok r.2)

/-- Refinement target following the claim's words: for a map whose keys and
values are all scalars, one combined entry per key/value pair, named by the
key's rendered string, valued by the value's rendered string, with a zero
variables reference. -/
def scalarMapEntriesSpec (s : VarHandles) : List ProcVariable → List DapVariable
  | k :: val :: rest =>
    { name := (convertVariable s k).1, value := (convertVariable s val).1,
      variablesReference := 0 } :: scalarMapEntriesSpec s rest
  | _ => []

theorem mapChildrenVars_all_scalar (n : Nat) :
    ∀ (cs : List ProcVariable) (s : VarHandles) (i : Nat),
      cs.length = 2 * n →
      (∀ c ∈ cs, convAllocates c = false) →
      mapChildrenVars s cs i = some (s, scalarMapEntriesSpec s cs) := by
  induction n with
  | zero =>
    intro cs s i hlen _
    rw [List.length_eq_zero] at hlen
    subst hlen
    simp [mapChildrenVars, scalarMapEntriesSpec]
  | succ m ih =>
    intro cs s i hlen hsc
    match cs with
    | [] => simp at hlen
    | [k] => simp [Nat.mul_succ] at hlen
    | k :: val :: rest =>
      have hk := convAllocates_false_spec s k (hsc k (by simp))
      have hv := convAllocates_false_spec s val (hsc val (by simp))
      have hrest : rest.length = 2 * m := by
        simp [Nat.mul_succ] at hlen ⊢
        omega
      have ihr := ih rest s (i + 1) hrest (fun c hc => hsc c (by simp [hc]))
      simp only [mapChildrenVars, scalarMapEntriesSpec]
      rw [hk.2, hv.2] at *
      simp only [hk.1, hv.1, hk.2, hv.2]
      rw [hv.2] at ihr
      simp [ihr, hk.1, hv.1, hk.2, hv.2]

theorem scalarMapEntriesSpec_length (n : Nat) :
    ∀ (cs : List ProcVariable) (s : VarHandles),
      cs.length = 2 * n → (scalarMapEntriesSpec s cs).length = n := by
  induction n with
  | zero =>
    intro cs s hlen
    rw [List.length_eq_zero] at hlen
    subst hlen
    simp [scalarMapEntriesSpec]
  | succ m ih =>
    intro cs s hlen
    match cs with
    | [] => simp at hlen
    | [k] => simp [Nat.mul_succ] at hlen
    | k :: val :: rest =>
      have hrest : rest.length = 2 * m := by
        simp [Nat.mul_succ] at hlen ⊢
        omega
      simp [scalarMapEntriesSpec, ih rest s hrest]

theorem scalarMapEntriesSpec_ref_zero :
    ∀ (cs : List ProcVariable) (s : VarHandles),
      ∀ e ∈ scalarMapEntriesSpec s cs, e.variablesReference = 0
  | [], _ => by simp [scalarMapEntriesSpec]
  | [_], _ => by simp [scalarMapEntriesSpec]
  | k :: val :: rest, s => by
    intro e he
    rw [scalarMapEntriesSpec] at he
    rcases List.mem_cons.mp he with h | h
    · subst h; rfl
    · exact scalarMapEntriesSpec_ref_zero rest s e h

/-! ## Command executor (server.go doCommand) -/

/-- Names of the debugger commands issued by the handlers (service/api
constants, modelled from their use sites). -/
def apiContinue : String := "continue"

/-- api.Next. -/
def apiNext : String := "next"

/-- api.Step. -/
def apiStep : String := "step"

/-- api.StepOut. -/
def apiStepOut : String := "stepOut"

/-- api.Halt. -/
def apiHalt : String := "halt"

/-- BetterBadAccessError (server.go): replacement text for a bad access
error. -/
def betterBadAccessError : String :=
  "invalid memory address or nil pointer dereference [signal SIGSEGV: segmentation violation]\x0aUnable to propogate EXC_BAD_ACCESS signal to target process and panic (see https://github.com/go-delve/delve/issues/852)"

/-- Protocol events the server sends. -/
inductive DapEvent
  | terminated
  | stopped (reason text : String) (threadId : Int) (allThreadsStopped : Bool)
  | output (category text : String)
  | initializedEv
deriving Repr, DecidableEq

/-- Outcome of debugger.Command as doCommand distinguishes it: the dedicated
exit error (proc.ErrProcessExited), a normal completion carrying the
state's Exited flag and the selected goroutine's id, or another error. -/
inductive CommandOutcome
  | exitedError
  | ok (exited : Bool) (selectedGoroutineID : Int)
  | errOther (msg : String)
deriving Repr, DecidableEq

/-- Whether doCommand's exit guard fires: the error is the process-exited
error, or there is no error and the returned state is exited. -/
def isExitOutcome : CommandOutcome → Bool
  | .exitedError => true
  | .ok exited _ => exited
  | .errOther _ => false

/-- doCommand (server.go): run a debugger command and emit the resulting
event(s). `dbg` is `none` when no debugger is attached (no-op). On the
error path, `stateQuery` is the goroutine id recovered by the non-blocking
state query, if that query succeeded. Returns the two registries after the
call and the events sent, in order. -/
def doCommand (command : String) (dbg : Option CommandOutcome)
    (stateQuery : Option Int) (sf : HandlesMap StackFrame) (vh : VarHandles) :
    HandlesMap StackFrame × VarHandles × List DapEvent :=
  match dbg with
  | none => (sf, vh, [])
  | some .exitedError => (sf, vh, [DapEvent.terminated])
  | some (.ok true _) => (sf, vh, [DapEvent.terminated])
  | some (.ok false gid) =>
    let sf2 := sf.reset
    let vh2 := vh.reset
    let reason :=
      if command == apiNext || command == apiStep || command == apiStepOut then "step"
      else "breakpoint"
    (sf2, vh2, [DapEvent.stopped reason ("") gid true])
  | some (.errOther msg) =>
    let sf2 := sf.reset
    let vh2 := vh.reset
    let text := if msg == "bad access" then betterBadAccessError else msg
    let tid : Int :=
      match stateQuery with
      | some t => t
      | none => 0
    (sf2, vh2,
      [DapEvent.stopped ("runtime error") text tid true,
       DapEvent.output ("stderr") ("ERROR: " ++ text ++ "\x0a")])

/-! ## configurationDone (server.go onConfigurationDoneRequest) -/

/-- launchAttachArgs (server.go): per-session settings captured from the
launch request. -/
structure LaunchAttachArgs where
  stopOnEntry : Bool
  stackTraceDepth : Int
  showGlobalVariables : Bool
deriving Repr, DecidableEq

/-- defaultArgs (server.go). -/
def defaultArgs : LaunchAttachArgs := ⟨false, 50, false⟩

/-- One observable action of a request handler, in emission order. -/
inductive SessionAction
  | sendEvent (e : DapEvent)
  | sendResponse (command : String)
  | runCommand (command : String)
deriving Repr, DecidableEq

/-- onConfigurationDoneRequest (server.go): with stop-on-entry, a stopped
event with reason entry precedes the response; otherwise the response is
followed by running the continue command. -/
def onConfigurationDoneRequest (args : LaunchAttachArgs) : List SessionAction :=
  let acts :=
    if args.stopOnEntry then
      [SessionAction.sendEvent (DapEvent.stopped ("entry") ("") 1 true)]
    else []
  let acts := acts ++ [SessionAction.sendResponse ("configurationDone")]
  if !args.stopOnEntry then acts ++ [SessionAction.runCommand apiContinue] else acts

/-! ## Teardown (server.go Stop and signalDisconnect) -/

/-- The parts of the server state the teardown paths touch. `disconnectChanSet`
is whether config.DisconnectChan is non-nil; `disconnectCloses` counts the
close operations performed on that channel. -/
structure TeardownState where
  stopChanClosed : Bool
  listenerClosed : Bool
  connClosed : Bool
  disconnectChanSet : Bool
  disconnectCloses : Nat
deriving Repr, DecidableEq

/-- The server state right after NewServer and Run: the stop channel is open
and config.DisconnectChan is set. -/
def initialTeardownState : TeardownState := ⟨false, false, false, true, 0⟩

/-- Stop (server.go): closes the listener, closes the stop channel, closes
the connection and detaches. net.Close is idempotent and a nil/detached
debugger is tolerated, but closing an already-closed Go channel panics,
modelled by `none`. -/
def serverStop (st : TeardownState) : Option TeardownState :=
  let st := { st with listenerClosed := true }
  if st.stopChanClosed then none
  else some { st with stopChanClosed := true, connClosed := true }

/-- signalDisconnect (server.go): closes config.DisconnectChan only when it
is still set, then clears it, so the channel is closed at most once. -/
def signalDisconnect (st : TeardownState) : TeardownState :=
  if st.disconnectChanSet then
    { st with disconnectChanSet := false, disconnectCloses := st.disconnectCloses + 1 }
  else st

/-- The two teardown entry points. -/
inductive TeardownAction
  | stopAction
  | signalDisconnectAction
deriving Repr, DecidableEq

/-- One teardown invocation; `none` is a panic. -/
def teardownStep (st : TeardownState) : TeardownAction → Option TeardownState
  | .stopAction => serverStop st
  | .signalDisconnectAction => some (signalDisconnect st)

/-- A sequence of teardown invocations from either flow, run to completion
or to the first panic. -/
def runTeardown (st : TeardownState) : List TeardownAction → Option TeardownState
  | [] => some st
  | a :: rest =>
    match teardownStep st a with
    | none => none
    | some st2 => runTeardown st2 rest

/-- The number of Stop invocations in a teardown sequence. -/
def countStops (tr : List TeardownAction) : Nat :=
  tr.countP (fun a => decide (a = TeardownAction.stopAction))

theorem runTeardown_no_panic (tr : List TeardownAction) :
    ∀ (st : TeardownState),
      countStops tr + (if st.stopChanClosed then 1 else 0) ≤ 1 →
      st.disconnectCloses + (if st.disconnectChanSet then 1 else 0) ≤ 1 →
      ∃ st2, runTeardown st tr = some st2 ∧
        st2.disconnectCloses + (if st2.disconnectChanSet then 1 else 0) ≤ 1 := by
  induction tr with
  | nil =>
    intro st _ hd
    exact ⟨st, rfl, hd⟩
  | cons a rest ih =>
    intro st hs hd
    cases a with
    | stopAction =>
      have h1 : countStops (TeardownAction.stopAction :: rest) = countStops rest + 1 := by
        simp [countStops, Nat.add_comm]
      rw [h1] at hs
      have hopen : st.stopChanClosed = false := by
        cases hst : st.stopChanClosed
        · rfl
        · rw [hst] at hs
          simp only [if_pos] at hs
          exact absurd hs (by omega)
      have hc0 : countStops rest = 0 := by
        rw [hopen] at hs
        simp at hs
        omega
      have step : teardownStep st .stopAction =
          some { st with listenerClosed := true, stopChanClosed := true, connClosed := true } := by
        simp [teardownStep, serverStop, hopen]
      rw [runTeardown, step]
      exact ih _ (by simp [hc0]) hd
    | signalDisconnectAction =>
      rw [runTeardown]
      simp only [teardownStep]
      by_cases hset : st.disconnectChanSet
      · have : signalDisconnect st =
            { st with disconnectChanSet := false, disconnectCloses := st.disconnectCloses + 1 } := by
          simp [signalDisconnect, hset]
        rw [this]
        refine ih _ ?_ ?_
        · simp [countStops] at hs ⊢
          omega
        · simp [hset] at hd
          simp
          omega
      · have : signalDisconnect st = st := by simp [signalDisconnect, hset]
        rw [this]
        refine ih _ ?_ hd
        simp [countStops] at hs ⊢
        omega

/-! ## Stack trace (server.go onStackTraceRequest) -/

/-- The function of a resolved location (proc.Function as used here). -/
structure GoFunction where
  fname : String
deriving Repr, DecidableEq

/-- A source location of a stack frame (frame.Call). -/
structure Location where
  file : String
  line : Int
  fn : Option GoFunction
deriving Repr, DecidableEq

/-- One frame returned by debugger.Stacktrace. -/
structure StacktraceFrame where
  call : Location
deriving Repr, DecidableEq

/-- A DAP source descriptor. -/
structure DapSource where
  sname : String
  path : String
deriving Repr, DecidableEq

/-- One DAP stack frame; `source = none` models the zero-valued Source of a
frame reported without a source reference. -/
structure DapStackFrame where
  id : Nat
  name : String
  line : Int
  column : Int
  source : Option DapSource
deriving Repr, DecidableEq

/-- Splits a character list at slashes (groups between separators, in
order). -/
def splitSlash : List Char → List (List Char)
  | [] => [[]]
  | c :: rest =>
    match splitSlash rest with
    | [] => [[]]
    | g :: gs => if c = '/' then [] :: g :: gs else (c :: g) :: gs

/-- Models Go's path/filepath.Base for slash-separated paths: the last
non-empty component, "." for the empty path, "/" for all-slash paths. -/
def filepathBase (p : String) : String :=
  if p == "" then "."
  else
    match ((splitSlash p.data).filter (fun s => s ≠ [])).getLast? with
    | some b => String.mk b
    | none => "/"

/-- The frame-construction loop of onStackTraceRequest: each frame registers
a new stack-frame handle, the name is the function name or the literal
unresolved marker, and frames at the synthetic autogenerated file carry no
source. `i` is the frame index within the goroutine's stack. -/
def buildStackFrames (sf : HandlesMap StackFrame) (goroutineID : Int) :
    List StacktraceFrame → Nat → HandlesMap StackFrame × List DapStackFrame
  | [], _ => (sf, [])
  | f :: rest, i =>
    let r := sf.create ⟨goroutineID, i⟩
    let name :=
      match f.call.fn with
      | none => "???"
      | some fn => fn.fname
    let source :=
      if f.call.file != "<autogenerated>" then
        some (DapSource.mk (filepathBase f.call.file) f.call.file)
      else none
    let rec2 := buildStackFrames r.2 goroutineID rest (i + 1)
    (rec2.1, DapStackFrame.mk r.1 name f.call.line 0 source :: rec2.2)

/-- Outcome of a stackTrace request. -/
inductive StackTraceResult
  | errorResp (id : Nat) (summary details : String)
  | ok (frames : List DapStackFrame) (totalFrames : Nat)
deriving Repr, DecidableEq

/-- onStackTraceRequest (server.go): fetch frames (outcome passed in as
`stk`), build DAP frames, then slice by startFrame and levels. -/
def onStackTraceRequest (sf : HandlesMap StackFrame) (goroutineID : Int)
    (stk : Except String (List StacktraceFrame)) (startFrame levels : Int) :
    HandlesMap StackFrame × StackTraceResult :=
  match stk with
  | .error e =>
    (sf, .errorResp UnableToProduceStackTrace ("Unable to produce stack trace") e)
  | .ok frames =>
    let r := buildStackFrames sf goroutineID frames 0
    let sliced :=
      if startFrame > 0 then r.2.drop (min startFrame.toNat r.2.length) else r.2
    let sliced :=
      if levels > 0 then sliced.take (min levels.toNat sliced.length) else sliced
    (r.1, .ok sliced frames.length)

/-- The frame list of a stackTrace outcome. -/
def StackTraceResult.framesOf : StackTraceResult → List DapStackFrame
  | .errorResp _ _ _ => []
  | .ok frames _ => frames

/-! ## Launch request (server.go onLaunchRequest) -/

/-- A decoded JSON value of the untyped launch-argument map. Numbers decode
to float64 in Go; the claims only need their ordering and integrality, so
they are carried as integers. -/
inductive JVal
  | jstr (s : String)
  | jnum (n : Int)
  | jbool (b : Bool)
  | jarr (elems : List JVal)
  | jnull
deriving Repr

/-- Go's comparison of an interface value with a string literal: true iff
the dynamic value is that string. -/
def JVal.isStr (v : JVal) (s : String) : Bool :=
  match v with
  | .jstr t => t == s
  | _ => false

mutual

/-- fmt's %v rendering of a decoded argument value, as used in the launch
error messages. -/
def jvalToString : JVal → String
  | .jstr s => s
  | .jnum n => toString n
  | .jbool b => if b then "true" else "false"
  | .jarr xs => "[" ++ jvalListToString xs ++ "]"
  | .jnull => "<nil>"

/-- fmt's %v rendering of the elements of an array value, space-separated. -/
def jvalListToString : List JVal → String
  | [] => ""
  | [x] => jvalToString x
  | x :: rest => jvalToString x ++ " " ++ jvalListToString rest

end
/-- External collaborators of the launch handler: filepath.Abs, the two
build entry points (returning an error or success), and debugger.New
(returning an error or success). -/
structure LaunchEnv where
  abs : String → Except String String
  goBuild : String → List String → String → Option String
  goTestBuild : String → List String → String → Option String
  newDebugger : List String → Option String

/-- Which build entry point was invoked, if any. -/
inductive BuildCall
  | goBuildCall
  | goTestBuildCall
deriving Repr, DecidableEq

/-- The response of a launch request. -/
inductive LaunchResp
  | errorResp (id : Nat) (summary details : String)
  | internalErrorResp (details : String)
  | okResp
deriving Repr, DecidableEq

/-- Everything observable about one launch request: the response, the events
sent, whether and which build ran, whether a debugger was created, the
session settings afterwards, the process arguments recorded on the config,
and the binary scheduled for removal. -/
structure LaunchResult where
  resp : LaunchResp
  events : List DapEvent
  buildCalled : Option BuildCall
  debuggerCreated : Bool
  args : LaunchAttachArgs
  processArgs : List String
  binaryToRemove : String
deriving Repr, DecidableEq

/-- Lookup of a key in the untyped argument map. -/
def argGet (arguments : List (String × JVal)) (k : String) : Option JVal :=
  arguments.lookup k

/-- Go's `.(bool)` type assertion on an optional argument value. -/
def jboolOf : Option JVal → Option Bool
  | some (.jbool b) => some b
  | _ => none

/-- Go's `.(float64)` type assertion on an optional argument value. -/
def jnumOf : Option JVal → Option Int
  | some (.jnum n) => some n
  | _ => none

theorem jboolOf_eq_none (v : JVal) (h : ∀ b, v ≠ .jbool b) : jboolOf (some v) = none := by
  cases v
  case jbool b => exact absurd rfl (h b)
  all_goals rfl

theorem jnumOf_eq_none (v : JVal) (h : ∀ n, v ≠ .jnum n) : jnumOf (some v) = none := by
  cases v
  case jnum n => exact absurd rfl (h n)
  all_goals rfl

/-- The program argument as the Go string type assertion sees it: `none`
when absent or not a string. -/
def programArg (arguments : List (String × JVal)) : Option String :=
  match argGet arguments ("program") with
  | some (.jstr s) => some s
  | _ => none

/-- The early failed-to-launch result for a missing program attribute. -/
def launchProgramMissing (cfg : LaunchAttachArgs) : LaunchResult :=
  { resp := .errorResp FailedToLaunch ("Failed to launch")
      ("The program attribute is missing in debug configuration.")
    events := []
    buildCalled := none
    debuggerCreated := false
    args := cfg
    processArgs := []
    binaryToRemove := "" }

/-- Output path for the compiled binary in debug or test modes (server.go
debugBinary). -/
def debugBinary : String := "./__debug_bin"

/-- Element-wise string extraction of the target args array; stops at the
first non-string element with its error message, like the Go loop. -/
def parseTargetArgs : List JVal → Except String (List String)
  | [] => .ok []
  | .jstr s :: rest => (parseTargetArgs rest).map (fun l => s :: l)
  | other :: _ =>
    .error ("value \x27" ++ jvalToString other ++
      "\x27 in \x27args\x27 attribute in debug configuration is not a string.")

/-- The args attribute parsed as Go does: absent means no target arguments,
a non-array is an error, an array must hold only strings. -/
def targetArgsResult (arguments : List (String × JVal)) : Except String (List String) :=
  match argGet arguments ("args") with
  | none => .ok []
  | some (.jarr xs) => parseTargetArgs xs
  | some other =>
    .error ("\x27args\x27 attribute \x27" ++ jvalToString other ++
      "\x27 in debug configuration is not an array.")

/-- The tail of onLaunchRequest after the build stage: the mode allow-list
check, the optional-argument overwrites, the target args, and debugger
creation. `program` is the (possibly rebuilt) program path. -/
def onLaunchStage2 (env : LaunchEnv) (cfg : LaunchAttachArgs)
    (arguments : List (String × JVal)) (mode : JVal) (program : String)
    (buildCalled : Option BuildCall) (binaryToRemove : String) : LaunchResult :=
  if !(mode.isStr ("exec")) && !(mode.isStr ("debug")) && !(mode.isStr ("test")) then
    { resp := .errorResp FailedToLaunch ("Failed to launch")
        ("Unsupported \x27mode\x27 value " ++ goQuote (jvalToString mode) ++
         " in debug configuration.")
      events := []
      buildCalled := buildCalled
      debuggerCreated := false
      args := cfg
      processArgs := []
      binaryToRemove := binaryToRemove }
  else
    let a1 :=
      match jboolOf (argGet arguments ("stopOnEntry")) with
      | some b => { cfg with stopOnEntry := b }
      | none => cfg
    let a2 :=
      match jnumOf (argGet arguments ("stackTraceDepth")) with
      | some d => if d > 0 then { a1 with stackTraceDepth := d } else a1
      | none => a1
    let a3 :=
      match jboolOf (argGet arguments ("showGlobalVariables")) with
      | some b => { a2 with showGlobalVariables := b }
      | none => a2
    match targetArgsResult arguments with
    | .error bad =>
      { resp := .errorResp FailedToLaunch ("Failed to launch") bad
        events := []
        buildCalled := buildCalled
        debuggerCreated := false
        args := a3
        processArgs := []
        binaryToRemove := binaryToRemove }
    | .ok targetArgs =>
      let processArgs := program :: targetArgs
      match env.newDebugger processArgs with
      | some e =>
        { resp := .errorResp FailedToLaunch ("Failed to launch") e
          events := []
          buildCalled := buildCalled
          debuggerCreated := false
          args := a3
          processArgs := processArgs
          binaryToRemove := binaryToRemove }
      | none =>
        { resp := .okResp
          events := [DapEvent.initializedEv]
          buildCalled := buildCalled
          debuggerCreated := true
          args := a3
          processArgs := processArgs
          binaryToRemove := binaryToRemove }

/-- onLaunchRequest (server.go): program validation, mode defaulting, the
build stage for debug/test modes (output path, filepath.Abs, buildFlags
typing, the build itself), then the shared tail. -/
def onLaunchRequest (env : LaunchEnv) (cfg : LaunchAttachArgs)
    (arguments : List (String × JVal)) : LaunchResult :=
  match programArg arguments with
  | none => launchProgramMissing cfg
  | some program =>
    if program == "" then launchProgramMissing cfg
    else
      let mode :=
        match argGet arguments ("mode") with
        | none => JVal.jstr ("debug")
        | some m => if m.isStr ("") then JVal.jstr ("debug") else m
      if mode.isStr ("debug") || mode.isStr ("test") then
        let output :=
          match argGet arguments ("output") with
          | some (.jstr s) => if s == "" then debugBinary else s
          | _ => debugBinary
        match env.abs output with
        | .error e =>
          { resp := .internalErrorResp e
            events := []
            buildCalled := none
            debuggerCreated := false
            args := cfg
            processArgs := []
            binaryToRemove := "" }
        | .ok debugname =>
          let bfr : Except JVal String :=
            match argGet arguments ("buildFlags") with
            | none => .ok ""
            | some (.jstr s) => .ok s
            | some other => .error other
          match bfr with
          | .error bad =>
            { resp := .errorResp FailedToLaunch ("Failed to launch")
                ("\x27buildFlags\x27 attribute \x27" ++ jvalToString bad ++
                 "\x27 in debug configuration is not a string.")
              events := []
              buildCalled := none
              debuggerCreated := false
              args := cfg
              processArgs := []
              binaryToRemove := "" }
          | .ok buildFlags =>
            let bc :=
              if mode.isStr ("debug") then BuildCall.goBuildCall
              else BuildCall.goTestBuildCall
            let buildErr :=
              if mode.isStr ("debug") then env.goBuild debugname [program] buildFlags
              else env.goTestBuild debugname [program] buildFlags
            match buildErr with
            | some e =>
              { resp := .errorResp FailedToLaunch ("Failed to launch")
                  ("Build error: " ++ e)
                events := []
                buildCalled := some bc
                debuggerCreated := false
                args := cfg
                processArgs := []
                binaryToRemove := "" }
            | none =>
              onLaunchStage2 env cfg arguments mode debugname (some bc) debugname
      else
        onLaunchStage2 env cfg arguments mode program none ("")

/-! ## Claim theorems -/

/-- A concrete nil slice snapshot. -/
def vNilSlice : ProcVariable :=
  ProcVariable.mk
    { zeroAttrs with
      kind := VKind.sliceK
      typeName := "[]int"
      hasDwarfType := true } []

/-- C2: convertVariable on a nil-valued slice, map, channel or pointer (base
address zero for slice/map, no children for channel, the nil, untyped-nil
and typed-nil pointer cases) returns a zero child reference, allocates no
handle in the value registry (the registry is returned unchanged), and the
display string contains the literal nil (it in fact starts with it). -/
theorem convertVariable_nil_valued (s : VarHandles) (v : ProcVariable)
    (h : isNilValuedSnapshot v) :
    (convertVariable s v).2.1 = 0 ∧ (convertVariable s v).2.2 = s ∧
      ∃ u, (convertVariable s v).1 = "nil" ++ u := by
  obtain ⟨a, cs⟩ := v
  obtain ⟨hu, hcase⟩ := h
  simp only [ProcVariable.attrs, ProcVariable.children] at hu hcase
  rcases hcase with ⟨hk, hb⟩ | ⟨hk, hb⟩ | ⟨hk, hc⟩ | ⟨hk, hp⟩
  · simp [convertVariable, ProcVariable.attrs, hu, hk, hb]
    exact nil_typed_display_decomp a.typeName
  · simp [convertVariable, ProcVariable.attrs, hu, hk, hb]
    exact nil_typed_display_decomp a.typeName
  · subst hc
    simp [convertVariable, ProcVariable.attrs, ProcVariable.children, hu, hk]
    exact nil_typed_display_decomp a.typeName
  · rcases hp with hd | hc | ⟨c, rest, hcs, haddr⟩
    · simp [convertVariable, ProcVariable.attrs, ProcVariable.children, hu, hk, hd]
      exact ⟨"", rfl⟩
    · subst hc
      simp only [convertVariable, ProcVariable.attrs, ProcVariable.children, hu, hk]
      cases a.hasDwarfType <;> exact ⟨by trivial, by trivial, "", rfl⟩
    · subst hcs
      obtain ⟨ca, ccs⟩ := c
      simp only [ProcVariable.attrs] at haddr
      simp only [convertVariable, ProcVariable.attrs, ProcVariable.children, hu, hk]
      cases a.hasDwarfType
      · exact ⟨by trivial, by trivial, "", rfl⟩
      · simp only [haddr, beq_self_eq_true, if_pos, if_true]
        exact ⟨by trivial, by trivial, nil_typed_display_decomp a.typeName⟩

/-- Witness for C2 at a concrete nil slice. -/
theorem convertVariable_nil_valued_witness :
    (convertVariable (newHandlesMap ProcVariable) vNilSlice).2.1 = 0 ∧
    (convertVariable (newHandlesMap ProcVariable) vNilSlice).2.2 = newHandlesMap ProcVariable ∧
    ∃ u, (convertVariable (newHandlesMap ProcVariable) vNilSlice).1 = "nil" ++ u :=
  convertVariable_nil_valued (newHandlesMap ProcVariable) vNilSlice
    ⟨rfl, Or.inl ⟨rfl, rfl⟩⟩

/-- A concrete complex64 snapshot with no children. -/
def vComplexNoChildren : ProcVariable :=
  ProcVariable.mk
    { zeroAttrs with
      kind := VKind.complex64K
      typeName := "complex64"
      realStr := "1"
      imagStr := "2" } []

/-- Counterexample to C8 as stated: a complex64 snapshot with zero children
still gets a handle allocated (convertVariable synthesizes the real and
imaginary children and falls through to the default branch, which
allocates), so its child reference is not zero. -/
theorem convertVariable_zero_children_complex_allocates :
    vComplexNoChildren.children = [] ∧
    (convertVariable (newHandlesMap ProcVariable) vComplexNoChildren).2.1 ≠ 0 := by
  constructor
  · rfl
  · decide

/-- C8 (amended): for every snapshot with zero children whose kind is not one
of the complex kinds, convertVariable returns a zero child reference and
leaves the value registry unchanged. For complex64/complex128 the converter
synthesizes two children and allocates, so they are the exception. -/
theorem convertVariable_zero_children_no_alloc (s : VarHandles) (v : ProcVariable)
    (h0 : v.children = []) (h1 : v.attrs.kind ≠ VKind.complex64K)
    (h2 : v.attrs.kind ≠ VKind.complex128K) :
    (convertVariable s v).2.1 = 0 ∧ (convertVariable s v).2.2 = s := by
  refine convAllocates_false_spec s v ?_
  obtain ⟨a, cs⟩ := v
  simp only [ProcVariable.attrs, ProcVariable.children] at h0 h1 h2 ⊢
  subst h0
  cases hu : a.unreadable with
  | some cause => simp [convAllocates, ProcVariable.attrs, hu]
  | none =>
    cases hk : a.kind <;>
      simp_all [convAllocates, ProcVariable.attrs, ProcVariable.children]
    cases a.hasDwarfType <;> rfl

/-- Witness for C8 (amended) at a concrete childless struct snapshot. -/
theorem convertVariable_zero_children_no_alloc_witness :
    (convertVariable (newHandlesMap ProcVariable)
        (ProcVariable.mk { zeroAttrs with kind := VKind.structK } [])).2.1 = 0 ∧
    (convertVariable (newHandlesMap ProcVariable)
        (ProcVariable.mk { zeroAttrs with kind := VKind.structK } [])).2.2 =
      newHandlesMap ProcVariable :=
  convertVariable_zero_children_no_alloc (newHandlesMap ProcVariable)
    (ProcVariable.mk { zeroAttrs with kind := VKind.structK } [])
    rfl (by decide) (by decide)

/-- C10: for every string-kind snapshot, convertVariable returns a zero child
reference and never allocates a value handle, regardless of how many
children the snapshot carries or whether the string was truncated. -/
theorem convertVariable_string_not_expandable (s : VarHandles) (v : ProcVariable)
    (h : v.attrs.kind = VKind.stringK) :
    (convertVariable s v).2.1 = 0 ∧ (convertVariable s v).2.2 = s := by
  obtain ⟨a, cs⟩ := v
  simp only [ProcVariable.attrs] at h
  cases hu : a.unreadable <;> simp [convertVariable, ProcVariable.attrs, hu, h]

/-- A concrete truncated string snapshot that carries a child. -/
def vTruncatedString : ProcVariable :=
  ProcVariable.mk
    { zeroAttrs with
      kind := VKind.stringK
      len := 100
      strVal := "abc" } [vNilSlice]

/-- Witness for C10 at a concrete truncated string snapshot with a child. -/
theorem convertVariable_string_not_expandable_witness :
    (convertVariable (newHandlesMap ProcVariable) vTruncatedString).2.1 = 0 ∧
    (convertVariable (newHandlesMap ProcVariable) vTruncatedString).2.2 =
      newHandlesMap ProcVariable :=
  convertVariable_string_not_expandable (newHandlesMap ProcVariable) vTruncatedString rfl

/-- C5: for a map-kind snapshot with 2N children in which every key and every
value converts to a zero reference (no allocation), the variables handler
produces exactly N entries, each a single combined entry whose name is the
key\x27s rendered string, whose value is the value\x27s rendered string, and whose
variables reference is zero. -/
theorem onVariablesRequest_scalar_map (s : VarHandles) (ref : Nat)
    (v : ProcVariable) (n : Nat)
    (hget : s.get ref = some v) (hkind : v.attrs.kind = VKind.mapK)
    (hlen : v.children.length = 2 * n)
    (hsc : ∀ c ∈ v.children, convAllocates c = false) :
    onVariablesRequest s ref =
      some (s, VariablesResult.ok (scalarMapEntriesSpec s v.children)) ∧
    (scalarMapEntriesSpec s v.children).length = n ∧
    ∀ e ∈ scalarMapEntriesSpec s v.children, e.variablesReference = 0 := by
  refine ⟨?_, scalarMapEntriesSpec_length n v.children s hlen,
    scalarMapEntriesSpec_ref_zero v.children s⟩
  simp only [onVariablesRequest, hget, hkind,
    mapChildrenVars_all_scalar n v.children s 0 hlen hsc]

/-- A concrete scalar key. -/
def vScalarKey : ProcVariable :=
  ProcVariable.mk { zeroAttrs with kind := VKind.intK, valueAsString := "1" } []

/-- A concrete scalar value. -/
def vScalarVal : ProcVariable :=
  ProcVariable.mk { zeroAttrs with kind := VKind.intK, valueAsString := "2" } []

/-- A concrete one-pair map of scalars. -/
def vMapScalars : ProcVariable :=
  ProcVariable.mk
    { zeroAttrs with
      kind := VKind.mapK
      base := 1
      len := 1 } [vScalarKey, vScalarVal]

/-- A value registry holding the one-pair scalar map at handle 1. -/
def mapWitnessHandles : VarHandles := ⟨2, [(1, vMapScalars)]⟩

/-- Witness for C5 at the concrete one-pair scalar map. -/
theorem onVariablesRequest_scalar_map_witness :
    onVariablesRequest mapWitnessHandles 1 =
      some (mapWitnessHandles,
        VariablesResult.ok (scalarMapEntriesSpec mapWitnessHandles vMapScalars.children)) ∧
    (scalarMapEntriesSpec mapWitnessHandles vMapScalars.children).length = 1 ∧
    ∀ e ∈ scalarMapEntriesSpec mapWitnessHandles vMapScalars.children,
      e.variablesReference = 0 :=
  onVariablesRequest_scalar_map mapWitnessHandles 1 vMapScalars 1 rfl rfl rfl (by decide)

/-- C1: a doCommand run that does not end in process exit clears both handle
registries before emitting the stopped event: the registries it returns are
the freshly reset (empty) ones, in which no handle resolves any more, and
the first event emitted is the stopped event. And until such a command runs
every allocated handle keeps resolving to its payload: a create preserves
every existing lookup, and the fresh handle resolves to the new payload. -/
theorem doCommand_clears_registries_and_handles_persist :
    (∀ (command : String) (outcome : CommandOutcome) (stateQuery : Option Int)
        (sf : HandlesMap StackFrame) (vh : VarHandles),
      isExitOutcome outcome = false →
      (∃ reason text tid rest,
        doCommand command (some outcome) stateQuery sf vh =
          (newHandlesMap StackFrame, newHandlesMap ProcVariable,
            DapEvent.stopped reason text tid true :: rest)) ∧
      (∀ h : Nat,
        (doCommand command (some outcome) stateQuery sf vh).1.get h = none ∧
        (doCommand command (some outcome) stateQuery sf vh).2.1.get h = none)) ∧
    (∀ (α : Type) (m : HandlesMap α) (p q : α) (h : Nat),
      m.WF → m.get h = some p →
      ((m.create q).2.get h = some p ∧ (m.create q).2.get (m.create q).1 = some q)) := by
  constructor
  · intro command outcome stateQuery sf vh hex
    cases outcome with
    | exitedError => simp [isExitOutcome] at hex
    | ok exited gid =>
      cases exited with
      | true => simp [isExitOutcome] at hex
      | false =>
        refine ⟨⟨_, _, _, _, rfl⟩, ?_⟩
        intro h
        exact ⟨rfl, rfl⟩
    | errOther msg =>
      refine ⟨⟨_, _, _, _, rfl⟩, ?_⟩
      intro h
      exact ⟨rfl, rfl⟩
  · intro α m p q h hwf hg
    exact ⟨HandlesMap.get_create_preserved m q h p hwf hg,
      HandlesMap.get_create_fresh m q⟩

/-- Witness for C1: a step command that stops normally resets both concrete
registries and emits a stopped event first; and a concrete registry create
preserves an existing handle and resolves the fresh one. -/
theorem doCommand_clears_registries_witness :
    ((∃ reason text tid rest,
        doCommand apiNext (some (CommandOutcome.ok false 7)) none
          (HandlesMap.mk 3 [(1, StackFrame.mk 7 0)]) (newHandlesMap ProcVariable) =
          (newHandlesMap StackFrame, newHandlesMap ProcVariable,
            DapEvent.stopped reason text tid true :: rest)) ∧
      (∀ h : Nat,
        (doCommand apiNext (some (CommandOutcome.ok false 7)) none
          (HandlesMap.mk 3 [(1, StackFrame.mk 7 0)]) (newHandlesMap ProcVariable)).1.get h =
          none ∧
        (doCommand apiNext (some (CommandOutcome.ok false 7)) none
          (HandlesMap.mk 3 [(1, StackFrame.mk 7 0)]) (newHandlesMap ProcVariable)).2.1.get h =
          none)) ∧
    (((HandlesMap.mk 3 [(1, (5 : Nat))]).create 9).2.get 1 = some 5 ∧
      ((HandlesMap.mk 3 [(1, (5 : Nat))]).create 9).2.get
        ((HandlesMap.mk 3 [(1, (5 : Nat))]).create 9).1 = some 9) :=
  ⟨doCommand_clears_registries_and_handles_persist.1 apiNext (CommandOutcome.ok false 7)
      none (HandlesMap.mk 3 [(1, StackFrame.mk 7 0)]) (newHandlesMap ProcVariable) rfl,
   doCommand_clears_registries_and_handles_persist.2 Nat (HandlesMap.mk 3 [(1, 5)]) 5 9 1
      (by intro e he; rw [List.mem_singleton] at he; subst he; decide) rfl⟩

/-- C4: onConfigurationDoneRequest with stop-on-entry sends the stopped event
(reason entry, all threads stopped) and then the configurationDone response,
and runs no command; without stop-on-entry it sends the response and then
runs the continue command. -/
theorem onConfigurationDone_event_order (args : LaunchAttachArgs) :
    onConfigurationDoneRequest args =
      if args.stopOnEntry then
        [SessionAction.sendEvent (DapEvent.stopped ("entry") ("") 1 true),
         SessionAction.sendResponse ("configurationDone")]
      else
        [SessionAction.sendResponse ("configurationDone"),
         SessionAction.runCommand apiContinue] := by
  cases h : args.stopOnEntry <;> simp [onConfigurationDoneRequest, h]

/-- The per-frame property of the amended C6: the frame name is the resolved
function name or the literal unresolved marker, and a frame at the synthetic
autogenerated file carries no source reference while any other carries its
file. -/
def frameNameSourceSpec (f : StacktraceFrame) (df : DapStackFrame) : Prop :=
  df.name = (match f.call.fn with
             | none => "???"
             | some fn => fn.fname) ∧
  (f.call.file = "<autogenerated>" → df.source = none) ∧
  (f.call.file ≠ "<autogenerated>" →
    df.source = some (DapSource.mk (filepathBase f.call.file) f.call.file))

/-- A concrete frame whose function is unresolved. -/
def unresolvedFrame : StacktraceFrame := ⟨⟨"main.go", 7, none⟩⟩

/-- Counterexample to C6 as stated: for a frame with an unresolved function
the stackTrace handler reports the literal "???" as the frame name, not a
"file@line" fallback (that fallback is used for thread names in the threads
handler). -/
theorem stackTrace_unresolved_name_counterexample :
    ((onStackTraceRequest (newHandlesMap StackFrame) 1
        (Except.ok [unresolvedFrame]) 0 0).2).framesOf =
      [DapStackFrame.mk 1 "???" 7 0 (some (DapSource.mk "main.go" "main.go"))] ∧
    "???" ≠ "main.go" ++ "@" ++ "7" := by
  constructor
  · rfl
  · decide

/-- C6 (amended): every frame built by the stackTrace handler carries the
resolved function name, or the literal "???" when the function is
unresolved (the file@line fallback of the claim belongs to the threads
handler); frames at the synthetic autogenerated file carry no source
reference; and every frame of the (paginated) response is one of the built
frames. -/
theorem onStackTraceRequest_names_and_sources :
    (∀ (sf : HandlesMap StackFrame) (gid : Int) (frames : List StacktraceFrame) (i : Nat),
      List.Forall₂ frameNameSourceSpec frames (buildStackFrames sf gid frames i).2) ∧
    (∀ (sf : HandlesMap StackFrame) (gid : Int) (frames : List StacktraceFrame)
        (startFrame levels : Int) (df : DapStackFrame),
      df ∈ ((onStackTraceRequest sf gid (Except.ok frames) startFrame levels).2).framesOf →
      df ∈ (buildStackFrames sf gid frames 0).2) := by
  constructor
  · intro sf gid frames i
    induction frames generalizing sf i with
    | nil => exact List.Forall₂.nil
    | cons f rest ih =>
      refine List.Forall₂.cons ?_ (ih _ _)
      refine ⟨?_, ?_, ?_⟩
      · cases hfn : f.call.fn <;> simp [hfn]
      · intro hf
        simp [hf]
      · intro hf
        simp [hf]
  · intro sf gid frames startFrame levels df hmem
    simp only [onStackTraceRequest, StackTraceResult.framesOf] at hmem
    split at hmem <;> split at hmem <;>
      first
      | exact hmem
      | exact List.take_subset _ _ hmem
      | exact List.drop_subset _ _ hmem
      | exact List.drop_subset _ _ (List.take_subset _ _ hmem)

/-- Witness for C6 (amended) at the concrete unresolved frame. -/
theorem onStackTraceRequest_names_and_sources_witness :
    List.Forall₂ frameNameSourceSpec [unresolvedFrame]
      (buildStackFrames (newHandlesMap StackFrame) 1 [unresolvedFrame] 0).2 ∧
    DapStackFrame.mk 1 "???" 7 0 (some (DapSource.mk "main.go" "main.go")) ∈
      (buildStackFrames (newHandlesMap StackFrame) 1 [unresolvedFrame] 0).2 :=
  ⟨onStackTraceRequest_names_and_sources.1 (newHandlesMap StackFrame) 1 [unresolvedFrame] 0,
   onStackTraceRequest_names_and_sources.2 (newHandlesMap StackFrame) 1 [unresolvedFrame]
     0 0 (DapStackFrame.mk 1 "???" 7 0 (some (DapSource.mk "main.go" "main.go")))
     (by decide)⟩

/-- C7: a launch request whose program argument is absent, empty or not a
string is answered with the failed-to-launch error; no debugger is created,
no build is invoked, no event is emitted, and the session settings are
untouched. -/
theorem onLaunchRequest_missing_program (env : LaunchEnv) (cfg : LaunchAttachArgs)
    (arguments : List (String × JVal))
    (h : programArg arguments = none ∨ programArg arguments = some "") :
    onLaunchRequest env cfg arguments = launchProgramMissing cfg ∧
    (launchProgramMissing cfg).resp =
      LaunchResp.errorResp FailedToLaunch ("Failed to launch")
        ("The program attribute is missing in debug configuration.") ∧
    (launchProgramMissing cfg).events = [] ∧
    (launchProgramMissing cfg).buildCalled = none ∧
    (launchProgramMissing cfg).debuggerCreated = false ∧
    (launchProgramMissing cfg).args = cfg := by
  refine ⟨?_, rfl, rfl, rfl, rfl, rfl⟩
  rcases h with h | h <;> simp [onLaunchRequest, h]

/-- The external collaborators all succeeding, used by the concrete launch
scenarios. -/
def env0 : LaunchEnv where
  abs := fun s => .ok s
  goBuild := fun _ _ _ => none
  goTestBuild := fun _ _ _ => none
  newDebugger := fun _ => none

/-- Witness for C7 at a launch request with no arguments at all. -/
theorem onLaunchRequest_missing_program_witness :
    onLaunchRequest env0 defaultArgs [] = launchProgramMissing defaultArgs ∧
    (launchProgramMissing defaultArgs).resp =
      LaunchResp.errorResp FailedToLaunch ("Failed to launch")
        ("The program attribute is missing in debug configuration.") ∧
    (launchProgramMissing defaultArgs).events = [] ∧
    (launchProgramMissing defaultArgs).buildCalled = none ∧
    (launchProgramMissing defaultArgs).debuggerCreated = false ∧
    (launchProgramMissing defaultArgs).args = defaultArgs :=
  onLaunchRequest_missing_program env0 defaultArgs [] (Or.inl rfl)

/-- Counterexample to C9 as stated: invoking Stop a second time closes the
already-closed stop channel, a panic in Go (Stop\x27s comment itself says it
must not be called more than once). -/
theorem teardown_double_stop_panics :
    runTeardown initialTeardownState
      [TeardownAction.stopAction, TeardownAction.stopAction] = none := by
  rfl

/-- C9 (amended): signalDisconnect may be invoked any number of times and
Stop once, in any order: no panic occurs and the disconnect-signal channel
is closed at most once in total. A second Stop, however, panics on the stop
channel, as the counterexample shows. -/
theorem teardown_idempotent_one_stop (tr : List TeardownAction)
    (h : countStops tr ≤ 1) :
    ∃ st2, runTeardown initialTeardownState tr = some st2 ∧
      st2.disconnectCloses ≤ 1 := by
  obtain ⟨st2, h1, h2⟩ := runTeardown_no_panic tr initialTeardownState
    (by simpa [initialTeardownState] using h) (by simp [initialTeardownState])
  exact ⟨st2, h1, le_trans (Nat.le_add_right _ _) h2⟩

/-- Witness for C9 (amended): disconnect, stop, then a late disconnect
signal. -/
theorem teardown_idempotent_one_stop_witness :
    ∃ st2, runTeardown initialTeardownState
      [TeardownAction.signalDisconnectAction, TeardownAction.stopAction,
       TeardownAction.signalDisconnectAction] = some st2 ∧
      st2.disconnectCloses ≤ 1 :=
  teardown_idempotent_one_stop _ (by decide)

/-- Counterexample to C3 as stated: a launch request in which the recognized
optional key stopOnEntry is present with the wrong type (a string) is not
answered with a failed-to-launch error — the launch succeeds and the
session default is silently kept. -/
theorem launch_wrong_typed_stopOnEntry_not_error :
    (onLaunchRequest env0 defaultArgs
      [(("program"), JVal.jstr ("/tmp/prog")), (("mode"), JVal.jstr ("exec")),
       (("stopOnEntry"), JVal.jstr ("yes"))]).resp = LaunchResp.okResp ∧
    (onLaunchRequest env0 defaultArgs
      [(("program"), JVal.jstr ("/tmp/prog")), (("mode"), JVal.jstr ("exec")),
       (("stopOnEntry"), JVal.jstr ("yes"))]).args = defaultArgs :=
  ⟨rfl, rfl⟩

/-- C3 (amended): among the recognized optional launch keys, only buildFlags
(in a build mode) and args produce a failed-to-launch error when present
with the wrong type; a wrong-typed stopOnEntry, stackTraceDepth or
showGlobalVariables is silently ignored and the session default kept. -/
theorem onLaunch_optional_key_typing :
    (∀ (env : LaunchEnv) (cfg : LaunchAttachArgs) (p dn : String) (bf : JVal),
      p ≠ "" → (∀ t, bf ≠ JVal.jstr t) → env.abs debugBinary = Except.ok dn →
      (onLaunchRequest env cfg
          [(("program"), JVal.jstr p), (("buildFlags"), bf)]).resp =
        LaunchResp.errorResp FailedToLaunch ("Failed to launch")
          ("\x27buildFlags\x27 attribute \x27" ++ jvalToString bf ++
           "\x27 in debug configuration is not a string.")) ∧
    (∀ (env : LaunchEnv) (cfg : LaunchAttachArgs) (p : String) (av : JVal),
      p ≠ "" → (∀ xs, av ≠ JVal.jarr xs) →
      (onLaunchRequest env cfg
          [(("program"), JVal.jstr p), (("mode"), JVal.jstr ("exec")),
           (("args"), av)]).resp =
        LaunchResp.errorResp FailedToLaunch ("Failed to launch")
          ("\x27args\x27 attribute \x27" ++ jvalToString av ++
           "\x27 in debug configuration is not an array.")) ∧
    (∀ (env : LaunchEnv) (cfg : LaunchAttachArgs) (p : String) (sv dv gv : JVal),
      p ≠ "" → (∀ b, sv ≠ JVal.jbool b) → (∀ n, dv ≠ JVal.jnum n) →
      (∀ b, gv ≠ JVal.jbool b) → env.newDebugger [p] = none →
      (onLaunchRequest env cfg
          [(("program"), JVal.jstr p), (("mode"), JVal.jstr ("exec")),
           (("stopOnEntry"), sv), (("stackTraceDepth"), dv),
           (("showGlobalVariables"), gv)]).resp = LaunchResp.okResp ∧
      (onLaunchRequest env cfg
          [(("program"), JVal.jstr p), (("mode"), JVal.jstr ("exec")),
           (("stopOnEntry"), sv), (("stackTraceDepth"), dv),
           (("showGlobalVariables"), gv)]).args = cfg) := by
  refine ⟨?_, ?_, ?_⟩
  · intro env cfg p dn bf hp hbf habs
    have hpb : (p == "") = false := beq_eq_false_iff_ne.mpr hp
    have habs2 : env.abs ("./__debug_bin") = Except.ok dn := habs
    cases bf with
    | jstr t => exact absurd rfl (hbf t)
    | jnum nn =>
      simp [onLaunchRequest, programArg, argGet, List.lookup, hpb, habs2,
        JVal.isStr, debugBinary, jvalToString]
    | jbool b =>
      simp [onLaunchRequest, programArg, argGet, List.lookup, hpb, habs2,
        JVal.isStr, debugBinary, jvalToString]
    | jarr xs =>
      simp [onLaunchRequest, programArg, argGet, List.lookup, hpb, habs2,
        JVal.isStr, debugBinary, jvalToString]
    | jnull =>
      simp [onLaunchRequest, programArg, argGet, List.lookup, hpb, habs2,
        JVal.isStr, debugBinary, jvalToString]
  · intro env cfg p av hp hav
    have hpb : (p == "") = false := beq_eq_false_iff_ne.mpr hp
    cases av with
    | jarr xs => exact absurd rfl (hav xs)
    | jstr t =>
      simp [onLaunchRequest, onLaunchStage2, programArg, argGet, List.lookup,
        hpb, JVal.isStr, targetArgsResult, jboolOf, jnumOf, jvalToString]
    | jnum nn =>
      simp [onLaunchRequest, onLaunchStage2, programArg, argGet, List.lookup,
        hpb, JVal.isStr, targetArgsResult, jboolOf, jnumOf, jvalToString]
    | jbool b =>
      simp [onLaunchRequest, onLaunchStage2, programArg, argGet, List.lookup,
        hpb, JVal.isStr, targetArgsResult, jboolOf, jnumOf, jvalToString]
    | jnull =>
      simp [onLaunchRequest, onLaunchStage2, programArg, argGet, List.lookup,
        hpb, JVal.isStr, targetArgsResult, jboolOf, jnumOf, jvalToString]
  · intro env cfg p sv dv gv hp hsv hdv hgv hnd
    have hpb : (p == "") = false := beq_eq_false_iff_ne.mpr hp
    have h1 : jboolOf (some sv) = none := jboolOf_eq_none sv hsv
    have h2 : jnumOf (some dv) = none := jnumOf_eq_none dv hdv
    have h3 : jboolOf (some gv) = none := jboolOf_eq_none gv hgv
    constructor <;>
      simp [onLaunchRequest, onLaunchStage2, programArg, argGet, List.lookup,
        hpb, h1, h2, h3, hnd, JVal.isStr, targetArgsResult]

/-- Witness for C3 (amended) at concrete wrong-typed values for each key. -/
theorem onLaunch_optional_key_typing_witness :
    ((onLaunchRequest env0 defaultArgs
        [(("program"), JVal.jstr ("/tmp/prog")), (("buildFlags"), JVal.jnum 3)]).resp =
      LaunchResp.errorResp FailedToLaunch ("Failed to launch")
        ("\x27buildFlags\x27 attribute \x27" ++ jvalToString (JVal.jnum 3) ++
         "\x27 in debug configuration is not a string.")) ∧
    ((onLaunchRequest env0 defaultArgs
        [(("program"), JVal.jstr ("/tmp/prog")), (("mode"), JVal.jstr ("exec")),
         (("args"), JVal.jbool true)]).resp =
      LaunchResp.errorResp FailedToLaunch ("Failed to launch")
        ("\x27args\x27 attribute \x27" ++ jvalToString (JVal.jbool true) ++
         "\x27 in debug configuration is not an array.")) ∧
    ((onLaunchRequest env0 defaultArgs
        [(("program"), JVal.jstr ("/tmp/prog")), (("mode"), JVal.jstr ("exec")),
         (("stopOnEntry"), JVal.jstr ("yes")), (("stackTraceDepth"), JVal.jstr ("deep")),
         (("showGlobalVariables"), JVal.jnull)]).resp = LaunchResp.okResp ∧
      (onLaunchRequest env0 defaultArgs
        [(("program"), JVal.jstr ("/tmp/prog")), (("mode"), JVal.jstr ("exec")),
         (("stopOnEntry"), JVal.jstr ("yes")), (("stackTraceDepth"), JVal.jstr ("deep")),
         (("showGlobalVariables"), JVal.jnull)]).args = defaultArgs) :=
  ⟨onLaunch_optional_key_typing.1 env0 defaultArgs ("/tmp/prog") ("./__debug_bin")
      (JVal.jnum 3) (by decide) (fun t h => JVal.noConfusion h) rfl,
   onLaunch_optional_key_typing.2.1 env0 defaultArgs ("/tmp/prog") (JVal.jbool true)
      (by decide) (fun xs h => JVal.noConfusion h),
   onLaunch_optional_key_typing.2.2 env0 defaultArgs ("/tmp/prog")
      (JVal.jstr ("yes")) (JVal.jstr ("deep")) JVal.jnull
      (by decide) (fun b h => JVal.noConfusion h) (fun n h => JVal.noConfusion h)
      (fun b h => JVal.noConfusion h) rfl⟩

end DelveDap
